import Mathlib

/-!
# Idea Farm — shallow embedding of the idea-processing pipeline

This file embeds, in Lean 4, the core of the `idea-farm` repository:

* `functions/main.py` — the `process_new_idea` orchestrator (creation flow);
* `functions/services/ai_service.py` — `AIService.summarize`;
* `functions/services/token_service.py` — `get_fernet_key`, `encrypt_token`,
  `decrypt_token`, `get_user_credentials`;
* `functions/services/drive_service.py` — `find_folder`, `create_folder`,
  `ensure_folder`.

External collaborators (Firestore, the network, the Vertex AI model, the
Drive API, the Fernet cipher of the `cryptography` package) are modelled as
explicit environment values: each fallible external call is an
`Except String α` (the Python call either raises, carrying a message, or
returns a value).  Python dictionaries with a fixed key set are modelled as
structures of `Option` fields (`none` = key absent), so the Python test
`"error" in result` becomes `result.error.isSome`.  Python strings are
sequences of code points, so `s[:n]` is `String.mk (s.data.take n)` and
`len(s)` is `String.length`.
-/

namespace IdeaFarm

/-- A suggested link, one element of the `suggestedLinks` array produced by
the summarizer (`{ title, url, description }`). -/
structure Link where
  title : String
  url : String
  description : String
deriving DecidableEq

/-- The dictionary returned by `AIService.summarize` (ai_service.py).  A
field is `none` when the corresponding key is absent from the dict; the
empty dict `{}` has every field `none`. -/
structure SummaryResult where
  overview : Option String := none
  summary : Option String := none
  detailedAnalysis : Option String := none
  topic : Option String := none
  suggestedLinks : Option (List Link) := none
  error : Option String := none
deriving DecidableEq

/-- The empty Python dict `{}` returned by `summarize` on empty content or a
missing client. -/
def emptySummary : SummaryResult := {}

/-- The `ideas/{ideaId}` Firestore document, restricted to the fields the
orchestrator reads or writes.  A field is `none` when absent from the
document. -/
structure IdeaDoc where
  status : String
  inputType : Option String := none
  originalContent : Option String := none
  userId : Option String := none
  summary : Option String := none
  detailedAnalysis : Option String := none
  driveFileId : Option String := none
  topic : Option String := none
  suggestedLinks : Option (List Link) := none
  error : Option String := none
deriving DecidableEq

/-! ## Content resolution (main.py lines 56–81) -/

/-- Leading literal of the synthesized system note (main.py line 77). -/
def snPre : String := "SYSTEM_NOTE: The content extraction failed with error: \x27"

/-- Middle literal of the synthesized system note, between the error message
and the original URL (main.py line 77). -/
def snMid : String := "\x27. Please summarize based on the URL itself, but START THE SUMMARY with: \x27⚠️ **Content Extraction Failed**\x27.\n\nURL: "

/-- The f-string of main.py line 77: the system note synthesized when URL
extraction failed, embedding the failure message and the original URL. -/
def systemNote (msg content : String) : String :=
  snPre ++ msg ++ (snMid ++ content)

/-- main.py lines 61–77: resolve `extracted_text` from the original content,
the input type, and the outcome of `extract_content` (which either raises,
or returns `None` or a string; Python's `if extracted:` is falsy on both
`None` and the empty string). -/
def resolveExtracted (content inputType : String)
    (extractResult : Except String (Option String)) : String :=
  if inputType = "url" then
    match extractResult with
    | .ok extracted =>
        if (extracted.getD "") ≠ "" then extracted.getD ""
        else systemNote "Extraction returned empty content." content
    | .error e => systemNote ("Extraction failed: " ++ e) content
  else content

/-- Python slicing `s[:n]`: the first `n` code points of `s`. -/
def pyTake (s : String) (n : Nat) : String := String.mk (s.data.take n)

/-- The marker appended by main.py line 81 when the text is truncated. -/
def truncationMarker : String := "... (truncated)"

/-- main.py lines 80–81: truncate `extracted_text` to 900000 characters,
appending the truncation marker, when it is longer than 900000. -/
def truncateExtracted (s : String) : String :=
  if s.length > 900000 then pyTake s 900000 ++ truncationMarker else s

/-! ## The orchestrator (main.py `process_new_idea`) -/

/-- Outcomes of the external calls made by one run of `process_new_idea`.
Each `Except String _` is a call that either raises (with a message) or
returns.  `uploadAttempt` stands for the whole body of the inner
`try` of main.py lines 104–120 (credential lookup plus Drive upload): it
yields the `drive_file_id` or raises, and the orchestrator catches the
raise. -/
structure PipelineEnv where
  markProcessing : Except String Unit
  extractResult : Except String (Option String)
  persistText : Except String Unit
  summarize : Except String SummaryResult
  uploadAttempt : Except String (Option String)
  finalUpdate : Except String Unit

/-- The `doc_ref.update({...})` of the top-level `except` handler
(main.py lines 141–144): force status `failed`, record the message. -/
def failUpdate (doc : IdeaDoc) (msg : String) : IdeaDoc :=
  { doc with status := "failed", error := some msg }

/-- The `update_data` write of main.py lines 122–136: a merge update of the
idea document from the summarizer result and the drive file id.  `error` is
written only when the result carries an `error` key; a merge update leaves
an omitted field at its previous value. -/
def applyFinalUpdate (doc : IdeaDoc) (result : SummaryResult)
    (driveFileId : Option String) : IdeaDoc :=
  { doc with
    status := if result.error.isSome then "failed" else "ready",
    summary := match result.overview with
               | some o => some o
               | none => result.summary,
    detailedAnalysis := result.detailedAnalysis,
    driveFileId := driveFileId,
    topic := some (result.topic.getD "Uncategorized"),
    suggestedLinks := some (result.suggestedLinks.getD []),
    error := if result.error.isSome then result.error else doc.error }

/-- What one run of `process_new_idea` leaves behind: the final state of the
idea document, the `fullText` written to the content sub-collection
(`none` when the run raised before that write succeeded), and the text
handed to `summarize` (`none` when the run raised before that call). -/
structure RunOutcome where
  idea : IdeaDoc
  persistedFullText : Option String
  summarizeInput : Option String
deriving DecidableEq

/-- main.py lines 40–144, the creation flow of `process_new_idea`, for a
run whose event carries data.  The `try` body marks the idea `processing`,
resolves and truncates `extracted_text`, persists it, summarizes, attempts
the optional Drive upload (its exceptions are caught and only logged), and
writes the final update; any exception escaping those steps is caught by
the top-level handler, which force-marks the idea `failed` with the
exception's message. -/
def process_new_idea (doc : IdeaDoc) (env : PipelineEnv) : RunOutcome :=
  match env.markProcessing with
  | .error e =>
      { idea := failUpdate doc e, persistedFullText := none, summarizeInput := none }
  | .ok _ =>
    let doc1 : IdeaDoc := { doc with status := "processing" }
    let content := doc.originalContent.getD ""
    let inputType := doc.inputType.getD "text"
    let extractedText :=
      truncateExtracted (resolveExtracted content inputType env.extractResult)
    match env.persistText with
    | .error e =>
        { idea := failUpdate doc1 e, persistedFullText := none, summarizeInput := none }
    | .ok _ =>
      match env.summarize with
      | .error e =>
          { idea := failUpdate doc1 e, persistedFullText := some extractedText,
            summarizeInput := some extractedText }
      | .ok result =>
        let driveFileId : Option String :=
          if (result.detailedAnalysis.getD "") ≠ "" then
            match env.uploadAttempt with
            | .ok i => i
            | .error _ => none
          else none
        match env.finalUpdate with
        | .error e =>
            { idea := failUpdate doc1 e, persistedFullText := some extractedText,
              summarizeInput := some extractedText }
        | .ok _ =>
            { idea := applyFinalUpdate doc1 result driveFileId,
              persistedFullText := some extractedText,
              summarizeInput := some extractedText }

/-! ## The AI summarizer (ai_service.py `AIService.summarize`) -/

/-- Outcomes of the external steps of one `summarize` call:
`modelResponse` is `generate_content` followed by reading `response.text`
(raises, or returns the raw text), and `parseJson` is `json.loads` on the
fence-stripped text (raises on malformed JSON, or returns the parsed dict).
Both raises land in the same `except` of ai_service.py lines 128–135. -/
structure AIEnv where
  modelResponse : Except String String
  parseJson : String → Except String SummaryResult

/-- ai_service.py line 125: strip markdown code fences from the raw model
response before parsing. -/
def stripFences (text : String) : String :=
  ((text.replace "```json" "").replace "```" "").trim

/-- The dict built by the `except` branch of ai_service.py lines 130–135:
placeholder values plus the exception's message under `error`. -/
def aiFailureResult (e : String) : SummaryResult :=
  { summary := some "AI Summarization failed.",
    topic := some "Uncategorized",
    suggestedLinks := some [],
    error := some e }

/-- ai_service.py lines 68–135, `AIService.summarize`.  `client` is
`self.client` (`none` when `__init__` failed to build the Vertex AI
client).  Empty content or a missing client short-circuits to the empty
dict; otherwise the model is called and its response fence-stripped and
parsed, any exception of that block yielding `aiFailureResult`. -/
def summarize (client : Option Unit) (content : String) (env : AIEnv) :
    SummaryResult :=
  if content = "" ∨ client = none then emptySummary
  else
    match env.modelResponse with
    | .error e => aiFailureResult e
    | .ok text =>
      match env.parseJson (stripFences text) with
      | .error e => aiFailureResult e
      | .ok r => r

/-! ## The credential subsystem (token_service.py) -/

/-- Modelled from the spec: the Fernet token of the `cryptography` package
(not in src/) — "symmetric authenticated encryption".  A ciphertext is
either a token produced by `Fernet(key).encrypt(plaintext)` or arbitrary
other bytes; decryption with the producing key recovers the plaintext, and
decryption of anything else (wrong key, or tampered/invalid bytes) raises
`InvalidToken` rather than returning a wrong plaintext. -/
inductive FernetCiphertext where
  | valid (key : String) (plaintext : String)
  | tampered (raw : String)
deriving DecidableEq

/-- Modelled from the spec: `Fernet(key).encrypt(t)` of the `cryptography`
package. -/
def fernetEncrypt (key t : String) : FernetCiphertext := .valid key t

/-- Modelled from the spec: `Fernet(key).decrypt(ct)` of the `cryptography`
package — authenticated decryption, raising `InvalidToken` on a wrong key
or a tampered ciphertext. -/
def fernetDecrypt (key : String) (ct : FernetCiphertext) :
    Except String String :=
  match ct with
  | .valid k t => if k = key then .ok t else .error "InvalidToken"
  | .tampered _ => .error "InvalidToken"

/-- token_service.py lines 15–19, `get_fernet_key`: read `FERNET_KEY` from
the environment (`none` when unset); `if not key:` raises on an unset or
empty key. -/
def get_fernet_key (envKey : Option String) : Except String String :=
  match envKey with
  | none => .error "FERNET_KEY environment variable not set. Application cannot encrypt/decrypt tokens."
  | some k =>
      if k = "" then
        .error "FERNET_KEY environment variable not set. Application cannot encrypt/decrypt tokens."
      else .ok k

/-- token_service.py lines 21–28, `encrypt_token`: build the Fernet from
the configured key and encrypt; the `except` branch logs and re-raises, so
failures propagate unchanged. -/
def encrypt_token (envKey : Option String) (token : String) :
    Except String FernetCiphertext :=
  match get_fernet_key envKey with
  | .error e => .error e
  | .ok k => .ok (fernetEncrypt k token)

/-- token_service.py lines 30–37, `decrypt_token`: build the Fernet from
the configured key and decrypt; the `except` branch logs and re-raises, so
failures propagate unchanged. -/
def decrypt_token (envKey : Option String) (ct : FernetCiphertext) :
    Except String String :=
  match get_fernet_key envKey with
  | .error e => .error e
  | .ok k => fernetDecrypt k ct

/-- The `google.oauth2.credentials.Credentials` object assembled by
`get_user_credentials`, restricted to the fields the code sets. -/
structure Credentials where
  refresh_token : String
  client_id : String
  client_secret : String
deriving DecidableEq

/-- The external world of one `get_user_credentials` call:
`storedSecret` is the `users/{uid}/params/secrets` document (`none` = no
document; `some none` = document without a `google_drive_refresh_token`
field), `fernetKey`, `clientId`, `clientSecret` are environment variables,
and `refreshOutcome` is the `creds.refresh(Request())` network call. -/
structure CredEnv where
  storedSecret : Option (Option FernetCiphertext)
  fernetKey : Option String
  clientId : Option String
  clientSecret : Option String
  refreshOutcome : Except String Unit

/-- token_service.py lines 39–86, `get_user_credentials`: look up the
stored ciphertext (absence is a normal `None` outcome), then inside a
`try`: decrypt the token, check the client identity configuration, build
the credentials and refresh them; every exception of that block is caught
and converted to `None`. -/
def get_user_credentials (env : CredEnv) : Option Credentials :=
  match env.storedSecret with
  | none => none
  | some secretDoc =>
    match secretDoc with
    | none => none
    | some ct =>
      match decrypt_token env.fernetKey ct with
      | .error _ => none
      | .ok refresh_token =>
        if (env.clientId.getD "") = "" ∨ (env.clientSecret.getD "") = "" then none
        else
          match env.refreshOutcome with
          | .error _ => none
          | .ok _ =>
              some { refresh_token := refresh_token,
                     client_id := env.clientId.getD "",
                     client_secret := env.clientSecret.getD "" }

/-! ## The archive uploader (drive_service.py folder resolution) -/

/-- Modelled from the spec: the Drive folder store seen through
`files().list` / `files().create` — a list of (id, name) folders in
creation order plus a counter generating fresh ids. -/
structure DriveWorld where
  folders : List (String × String)
  nextId : Nat
deriving DecidableEq

/-- Whether the Drive API calls made by one `ensure_folder` run raise:
`listFails` is the `files().list` call of `find_folder`, `createFails` the
`files().create` call of `create_folder`. -/
structure DriveCallFaults where
  listFails : Bool
  createFails : Bool
deriving DecidableEq

/-- drive_service.py lines 23–36, `find_folder`: query the store for a
folder of the given name and return the first match's id, `None` when
there is none; when the `files().list` call raises, the `except` branch of
lines 34–36 logs the error and likewise returns `None`. -/
def find_folder (w : DriveWorld) (listFails : Bool) (folder_name : String) :
    Option String :=
  if listFails then none
  else (w.folders.find? (fun p => p.2 = folder_name)).map Prod.fst

/-- drive_service.py lines 38–49, `create_folder`: create a new folder of
the given name and return its id; when the `files().create` call raises,
the `except` branch of lines 47–49 logs the error and returns `None`, with
no folder created. -/
def create_folder (w : DriveWorld) (createFails : Bool) (folder_name : String) :
    Option String × DriveWorld :=
  if createFails then (none, w)
  else
    let id := "folder-" ++ toString w.nextId
    (some id,
     { folders := w.folders ++ [(id, folder_name)], nextId := w.nextId + 1 })

/-- drive_service.py lines 51–56, `ensure_folder`: find the folder by name
first, and only when the search came back `None` (no match, or the search
call failed) create it. -/
def ensure_folder (w : DriveWorld) (faults : DriveCallFaults)
    (folder_name : String) : Option String × DriveWorld :=
  match find_folder w faults.listFails folder_name with
  | some id => (some id, w)
  | none => create_folder w faults.createFails folder_name

/-! ## Shared helper definitions and lemmas -/

/-- A `PipelineEnv` in which every external call succeeds, extraction
returns `None` and the summarizer returns the empty dict. -/
def allOkEnv : PipelineEnv :=
  { markProcessing := .ok (), extractResult := .ok none, persistText := .ok (),
    summarize := .ok emptySummary, uploadAttempt := .ok none,
    finalUpdate := .ok () }

/-- A 900001-character string, one character over the truncation limit. -/
def bigText : String := String.mk (List.replicate 900001 'a')

/-- `sub` occurs contiguously inside `s`. -/
def containsStr (s sub : String) : Prop := ∃ p q, s = p ++ (sub ++ q)

/-- The `extraction_error_msg` set by main.py lines 61–74: the message
recorded when `extract_content` raised, or returned `None` or an empty
string; `none` when extraction succeeded with non-empty text. -/
def extractionFailureMsg (res : Except String (Option String)) :
    Option String :=
  match res with
  | .error e => some ("Extraction failed: " ++ e)
  | .ok o =>
      if (o.getD "") = "" then some "Extraction returned empty content."
      else none

/-- The instruction, embedded in the system note, telling the summarizer to
flag the extraction failure visibly at the start of its output. -/
def flagInstruction : String := "START THE SUMMARY with: \x27⚠️ **Content Extraction Failed**\x27"

/-- An `AIEnv` whose model call raises. -/
def aiErrEnv : AIEnv :=
  { modelResponse := .error "model down", parseJson := fun _ => .ok emptySummary }

/-- A `CredEnv` with a stored encrypted token but no `FERNET_KEY`
configured. -/
def credEnvNoKey : CredEnv :=
  { storedSecret := some (some (fernetEncrypt "k" "tok")), fernetKey := none,
    clientId := some "cid", clientSecret := some "cs", refreshOutcome := .ok () }

/-- An `ensure_folder` run in which both Drive API calls succeed. -/
def noFaults : DriveCallFaults := { listFails := false, createFails := false }

/-- An `ensure_folder` run in which the `files().list` call raises. -/
def listDown : DriveCallFaults := { listFails := true, createFails := false }

/-- A Drive folder store with no folders. -/
def emptyDrive : DriveWorld := { folders := [], nextId := 0 }

theorem snMid_split :
    snMid = "\x27. Please summarize based on the URL itself, but "
      ++ (flagInstruction ++ ".\n\nURL: ") := rfl

theorem str_length_mk (l : List Char) : (String.mk l).length = l.length := rfl

theorem bigText_length : bigText.length = 900001 := by
  rw [bigText, str_length_mk, List.length_replicate]

theorem truncateExtracted_bigText :
    truncateExtracted bigText = pyTake bigText 900000 ++ truncationMarker := by
  simp [truncateExtracted, bigText_length]

theorem truncateExtracted_bigText_length :
    (truncateExtracted bigText).length = 900015 := by
  rw [truncateExtracted_bigText, String.length_append]
  have h1 : (pyTake bigText 900000).length = 900000 := by
    have hdata : bigText.data = List.replicate 900001 'a' := rfl
    rw [pyTake, str_length_mk, List.length_take, hdata, List.length_replicate]
    omega
  rw [h1]
  decide

/-! ## Claims -/

/-- Claim C1 — the orchestrator's final status computation sets `ready`
exactly when the summarizer result has no `error` key, and otherwise sets
`failed` and writes the summarizer's error message to the idea's `error`
field; consequently, for every run starting from an idea with no `error`
field, the final state satisfies `status = ready →` `error` absent and
`status = failed →` `error` present. -/
theorem C1_final_status_invariant (doc : IdeaDoc) (env : PipelineEnv)
    (result : SummaryResult) (driveFileId : Option String)
    (h : doc.error = none) :
    ((applyFinalUpdate doc result driveFileId).status = "ready" ↔ result.error = none)
    ∧ (result.error.isSome →
        (applyFinalUpdate doc result driveFileId).status = "failed"
        ∧ (applyFinalUpdate doc result driveFileId).error = result.error)
    ∧ ((process_new_idea doc env).idea.status = "ready" →
        (process_new_idea doc env).idea.error = none)
    ∧ ((process_new_idea doc env).idea.status = "failed" →
        (process_new_idea doc env).idea.error.isSome) := by
  refine ⟨?_, ?_, ?_, ?_⟩
  · cases hr : result.error <;> simp [applyFinalUpdate, hr]
  · intro hr
    cases hr' : result.error with
    | none => rw [hr'] at hr; simp at hr
    | some e => simp [applyFinalUpdate, hr']
  all_goals
    rcases env with ⟨mp, ex, pt, sm, up, fu⟩
    rcases mp with e | u
    · simp [process_new_idea, failUpdate]
    · rcases pt with e | u'
      · simp [process_new_idea, failUpdate]
      · rcases sm with e | r
        · simp [process_new_idea, failUpdate]
        · rcases fu with e | u''
          · simp [process_new_idea, failUpdate]
          · cases hr : r.error <;>
              simp [process_new_idea, applyFinalUpdate, hr, h]

/-- Claim C2 — every exception raised by a non-isolated step of the
creation flow (marking processing, persistence of the extracted text,
summarization, the final update) is caught by the top-level handler, which
updates the idea to status `failed` with the exception's message as its
`error` field; hence no run of `process_new_idea` terminates with the idea
left in status `processing`. -/
theorem C2_no_stuck_processing (doc : IdeaDoc) (env : PipelineEnv) :
    ((process_new_idea doc env).idea.status = "ready"
      ∨ (process_new_idea doc env).idea.status = "failed")
    ∧ (∀ e, env.markProcessing = .error e →
        (process_new_idea doc env).idea = failUpdate doc e)
    ∧ (∀ e, env.markProcessing = .ok () → env.persistText = .error e →
        (process_new_idea doc env).idea
          = failUpdate { doc with status := "processing" } e)
    ∧ (∀ e, env.markProcessing = .ok () → env.persistText = .ok () →
        env.summarize = .error e →
        (process_new_idea doc env).idea
          = failUpdate { doc with status := "processing" } e)
    ∧ (∀ e r, env.markProcessing = .ok () → env.persistText = .ok () →
        env.summarize = .ok r → env.finalUpdate = .error e →
        (process_new_idea doc env).idea
          = failUpdate { doc with status := "processing" } e) := by
  rcases env with ⟨mp, ex, pt, sm, up, fu⟩
  refine ⟨?_, ?_, ?_, ?_, ?_⟩
  · rcases mp with e | u
    · simp [process_new_idea, failUpdate]
    · rcases pt with e | u'
      · simp [process_new_idea, failUpdate]
      · rcases sm with e | r
        · simp [process_new_idea, failUpdate]
        · rcases fu with e | u''
          · simp [process_new_idea, failUpdate]
          · cases hr : r.error <;>
              simp [process_new_idea, applyFinalUpdate, hr]
  · rintro e rfl
    simp [process_new_idea]
  · rintro e rfl rfl
    simp [process_new_idea]
  · rintro e rfl rfl rfl
    simp [process_new_idea]
  · rintro e r rfl rfl rfl rfl
    simp [process_new_idea]

/-- Claim C1 witness — the invariant instantiated at a concrete idea with
no `error` field, the all-success environment and the empty summarizer
result. -/
theorem C1_final_status_invariant_witness :
    ({ status := "new" } : IdeaDoc).error = none
    ∧ (((applyFinalUpdate { status := "new" } emptySummary none).status = "ready"
          ↔ emptySummary.error = none)
       ∧ (emptySummary.error.isSome →
           (applyFinalUpdate { status := "new" } emptySummary none).status = "failed"
           ∧ (applyFinalUpdate { status := "new" } emptySummary none).error
               = emptySummary.error)
       ∧ ((process_new_idea { status := "new" } allOkEnv).idea.status = "ready" →
           (process_new_idea { status := "new" } allOkEnv).idea.error = none)
       ∧ ((process_new_idea { status := "new" } allOkEnv).idea.status = "failed" →
           (process_new_idea { status := "new" } allOkEnv).idea.error.isSome)) :=
  ⟨rfl, C1_final_status_invariant { status := "new" } allOkEnv emptySummary none rfl⟩

/-- Claim C3 counterexample — on a 900001-character input the stored
`extractedText` has 900015 characters (the 900000-character cut plus the
15-character marker), so it is not "at most 900,000 characters long" as the
claim states. -/
theorem C3_counterexample :
    ¬ ((truncateExtracted bigText).length ≤ 900000) := by
  rw [truncateExtracted_bigText_length]
  decide

/-- Claim C3 (amended) — the persisted `extractedText` is at most 900015
characters long (the 900000-character cut plus the 15-character truncation
marker): text of more than 900000 characters is cut to its first 900000
characters with the marker `"... (truncated)"` appended, and text of at
most 900000 characters is stored unchanged. -/
theorem C3_truncation_bound (s : String) :
    (truncateExtracted s).length ≤ 900015
    ∧ (s.length ≤ 900000 → truncateExtracted s = s)
    ∧ (900000 < s.length →
        truncateExtracted s = pyTake s 900000 ++ truncationMarker
        ∧ (truncateExtracted s).length = 900015) := by
  have hdl : s.length = s.data.length := rfl
  by_cases h : 900000 < s.length
  · have ht : truncateExtracted s = pyTake s 900000 ++ truncationMarker := by
      simp [truncateExtracted, h]
    have hl : (truncateExtracted s).length = 900015 := by
      rw [ht, String.length_append, pyTake, str_length_mk, List.length_take]
      have hmin : 900000 ⊓ s.data.length = 900000 := by omega
      rw [hmin]
      decide
    exact ⟨by omega, fun hle => by omega, fun _ => ⟨ht, hl⟩⟩
  · have ht : truncateExtracted s = s := by
      simp [truncateExtracted, h]
    exact ⟨by rw [ht]; omega, fun _ => ht, fun hgt => absurd hgt h⟩

/-- Claim C4 counterexample — a `text` idea whose `originalContent` has
900001 characters: the persisted `extractedText` is the truncated string,
not `originalContent`, so the claimed exact equality fails. -/
theorem C4_counterexample :
    (process_new_idea
        { status := "new", inputType := some "text", originalContent := some bigText }
        allOkEnv).persistedFullText ≠ some bigText := by
  have hrun : (process_new_idea
      { status := "new", inputType := some "text", originalContent := some bigText }
      allOkEnv).persistedFullText = some (truncateExtracted bigText) := by
    simp [process_new_idea, allOkEnv, resolveExtracted]
  rw [hrun]
  intro hcontra
  have heq := Option.some.inj hcontra
  have hlen := congrArg String.length heq
  rw [truncateExtracted_bigText_length, bigText_length] at hlen
  exact absurd hlen (by decide)

/-- Claim C4 (amended) — for every `text` idea whose `originalContent` has
at most 900000 characters, the `extractedText` persisted and passed to the
summarizer equals `originalContent` exactly; over that length it equals the
truncation of `originalContent`. -/
theorem C4_text_passthrough (doc : IdeaDoc) (env : PipelineEnv)
    (content : String)
    (ht : doc.inputType = some "text")
    (hc : doc.originalContent = some content)
    (hlen : content.length ≤ 900000)
    (hm : env.markProcessing = .ok ())
    (hp : env.persistText = .ok ()) :
    (process_new_idea doc env).persistedFullText = some content
    ∧ (process_new_idea doc env).summarizeInput = some content := by
  have hres : resolveExtracted content "text" env.extractResult = content := by
    simp [resolveExtracted]
  have htr : truncateExtracted content = content := by
    simp [truncateExtracted, Nat.not_lt.mpr hlen]
  cases hsm : env.summarize <;> cases hfu : env.finalUpdate <;>
    simp [process_new_idea, hm, hp, hsm, hfu, ht, hc, hres, htr]

/-- Claim C4 witness — the amended claim instantiated at a concrete short
`text` idea run through the all-success environment. -/
theorem C4_text_passthrough_witness :
    ("hello" : String).length ≤ 900000
    ∧ ((process_new_idea
          { status := "new", inputType := some "text", originalContent := some "hello" }
          allOkEnv).persistedFullText = some "hello"
       ∧ (process_new_idea
          { status := "new", inputType := some "text", originalContent := some "hello" }
          allOkEnv).summarizeInput = some "hello") :=
  ⟨by decide,
   C4_text_passthrough _ allOkEnv "hello" rfl rfl (by decide) rfl rfl⟩

/-- Claim C5 — for every `url` idea whose extraction fails (the call
raised, or returned `None` or empty text), the pipeline does not abort:
`extracted_text` becomes the synthesized system note, which contains the
failure message and the original URL and carries the instruction to flag
the failure visibly; the run then proceeds to hand that note (truncated)
to the summarizer. -/
theorem C5_url_failure_note (content : String)
    (res : Except String (Option String)) (msg : String)
    (h : extractionFailureMsg res = some msg) :
    resolveExtracted content "url" res = systemNote msg content
    ∧ containsStr (systemNote msg content) msg
    ∧ containsStr (systemNote msg content) content
    ∧ containsStr (systemNote msg content) flagInstruction
    ∧ (∀ doc env, doc.inputType = some "url" →
        doc.originalContent = some content →
        env.extractResult = res → env.markProcessing = .ok () →
        env.persistText = .ok () →
        (process_new_idea doc env).summarizeInput
          = some (truncateExtracted (systemNote msg content))) := by
  have hnote : resolveExtracted content "url" res = systemNote msg content := by
    cases res with
    | error e =>
        simp [extractionFailureMsg] at h
        subst h
        simp [resolveExtracted]
    | ok o =>
        by_cases ho : (o.getD "") = ""
        · rw [extractionFailureMsg, if_pos ho] at h
          replace h := Option.some.inj h
          subst h
          simp [resolveExtracted, ho]
        · rw [extractionFailureMsg, if_neg ho] at h
          exact absurd h (by simp)
  refine ⟨hnote, ?_, ?_, ?_, ?_⟩
  · exact ⟨snPre, snMid ++ content, by rw [systemNote, String.append_assoc]⟩
  · refine ⟨snPre ++ msg ++ snMid, "", ?_⟩
    rw [systemNote, String.append_empty]
    simp [String.append_assoc]
  · refine ⟨snPre ++ msg ++ "\x27. Please summarize based on the URL itself, but ",
      ".\n\nURL: " ++ content, ?_⟩
    rw [systemNote, snMid_split]
    simp [String.append_assoc]
  · intro doc env h1 h2 h3 hm hp
    rw [← h3] at hnote
    cases hsm : env.summarize <;> cases hfu : env.finalUpdate <;>
      simp [process_new_idea, hm, hp, hsm, hfu, h1, h2, hnote]

/-- Claim C5 witness — the note properties instantiated at a concrete URL
whose extraction raised `boom`. -/
theorem C5_url_failure_note_witness :
    extractionFailureMsg (.error "boom") = some "Extraction failed: boom"
    ∧ (resolveExtracted "http://x" "url" (.error "boom")
         = systemNote "Extraction failed: boom" "http://x"
       ∧ containsStr (systemNote "Extraction failed: boom" "http://x")
           "Extraction failed: boom"
       ∧ containsStr (systemNote "Extraction failed: boom" "http://x") "http://x"
       ∧ containsStr (systemNote "Extraction failed: boom" "http://x")
           flagInstruction
       ∧ (∀ doc env, doc.inputType = some "url" →
           doc.originalContent = some "http://x" →
           env.extractResult = .error "boom" → env.markProcessing = .ok () →
           env.persistText = .ok () →
           (process_new_idea doc env).summarizeInput
             = some (truncateExtracted
                 (systemNote "Extraction failed: boom" "http://x")))) :=
  ⟨rfl, C5_url_failure_note "http://x" (.error "boom") "Extraction failed: boom" rfl⟩

/-- Claim C6 — on the non-empty-input path, a model-call failure or a
parsing failure is absorbed inside `summarize` (which is a total function
of its environment, so it never raises out of the component): the returned
dict carries the exception's message under `error` together with the
placeholders `topic = "Uncategorized"` and an empty `suggestedLinks`
list. -/
theorem C6_summarize_error_isolation (content : String) (env : AIEnv)
    (hc : content ≠ "") :
    (∀ e, env.modelResponse = .error e →
      summarize (some ()) content env = aiFailureResult e
      ∧ (summarize (some ()) content env).error = some e
      ∧ (summarize (some ()) content env).topic = some "Uncategorized"
      ∧ (summarize (some ()) content env).suggestedLinks = some [])
    ∧ (∀ text e, env.modelResponse = .ok text →
        env.parseJson (stripFences text) = .error e →
        summarize (some ()) content env = aiFailureResult e
        ∧ (summarize (some ()) content env).error = some e
        ∧ (summarize (some ()) content env).topic = some "Uncategorized"
        ∧ (summarize (some ()) content env).suggestedLinks = some []) := by
  constructor
  · rintro e hm
    simp [summarize, hc, hm, aiFailureResult]
  · rintro text e hm hp
    simp [summarize, hc, hm, hp, aiFailureResult]

/-- Claim C6 witness — the isolation instantiated at non-empty content and
an environment whose model call raises. -/
theorem C6_summarize_error_isolation_witness :
    ("hi" : String) ≠ ""
    ∧ summarize (some ()) "hi" aiErrEnv = aiFailureResult "model down"
    ∧ (summarize (some ()) "hi" aiErrEnv).error = some "model down"
    ∧ (summarize (some ()) "hi" aiErrEnv).topic = some "Uncategorized"
    ∧ (summarize (some ()) "hi" aiErrEnv).suggestedLinks = some [] := by
  have h := (C6_summarize_error_isolation "hi" aiErrEnv (by decide)).1 "model down" rfl
  exact ⟨by decide, h.1, h.2.1, h.2.2.1, h.2.2.2⟩

/-- Claim C7 — with the same non-empty key configured, decrypting an
encrypted token returns the original token; decrypting a tampered
ciphertext, or a ciphertext produced under a different key, raises
`InvalidToken` rather than returning a wrong plaintext. -/
theorem C7_token_roundtrip (key t : String) (hk : key ≠ "") :
    (encrypt_token (some key) t).bind (fun ct => decrypt_token (some key) ct)
      = .ok t
    ∧ (∀ raw, decrypt_token (some key) (.tampered raw) = .error "InvalidToken")
    ∧ (∀ k2 t2, k2 ≠ key →
        decrypt_token (some key) (fernetEncrypt k2 t2)
          = .error "InvalidToken") := by
  refine ⟨?_, ?_, ?_⟩
  · simp [encrypt_token, decrypt_token, get_fernet_key, hk, fernetEncrypt,
      fernetDecrypt, Except.bind]
  · intro raw
    simp [decrypt_token, get_fernet_key, hk, fernetDecrypt]
  · intro k2 t2 hne
    simp [decrypt_token, get_fernet_key, hk, fernetEncrypt, fernetDecrypt, hne]

/-- Claim C7 witness — the round trip and the tampering rejection at a
concrete key and token. -/
theorem C7_token_roundtrip_witness :
    ("secret-key" : String) ≠ ""
    ∧ ((encrypt_token (some "secret-key") "tok").bind
          (fun ct => decrypt_token (some "secret-key") ct) = .ok "tok"
       ∧ (∀ raw, decrypt_token (some "secret-key") (.tampered raw)
            = .error "InvalidToken")
       ∧ (∀ k2 t2, k2 ≠ "secret-key" →
            decrypt_token (some "secret-key") (fernetEncrypt k2 t2)
              = .error "InvalidToken")) :=
  ⟨by decide, C7_token_roundtrip "secret-key" "tok" (by decide)⟩

/-- Claim C8 counterexample — with `FERNET_KEY` unset and a stored
encrypted token, `decrypt_token` does raise, but `get_user_credentials`
(the credential subsystem's own caller of it, token_service.py lines
59–86) catches that exception and returns `None`: the missing key is
caught by the credential subsystem and degrades silently, and nothing is
raised at startup — the key is only read when an operation runs.  This
contradicts the claim that the error "is never caught by the credential
subsystem" and that "any operation needing the key fails fast with an
exception". -/
theorem C8_counterexample :
    (∃ e, decrypt_token none (fernetEncrypt "k" "tok") = .error e)
    ∧ get_user_credentials credEnvNoKey = none :=
  ⟨⟨"FERNET_KEY environment variable not set. Application cannot encrypt/decrypt tokens.", rfl⟩, rfl⟩

/-- Claim C8 (amended) — an unset `FERNET_KEY` makes `get_fernet_key`
raise, and `encrypt_token` / `decrypt_token` re-raise rather than degrade;
but the key is read on each operation (not at startup), and
`get_user_credentials` catches the exception and returns `None`, silently
treating the missing key as "credentials unavailable". -/
theorem C8_missing_key_behaviour (t : String) (ct : FernetCiphertext)
    (env : CredEnv) (hk : env.fernetKey = none) :
    (∃ e, get_fernet_key none = .error e)
    ∧ (∃ e, encrypt_token none t = .error e)
    ∧ (∃ e, decrypt_token none ct = .error e)
    ∧ get_user_credentials env = none := by
  refine ⟨⟨_, rfl⟩, ⟨_, rfl⟩, ⟨_, rfl⟩, ?_⟩
  rcases env with ⟨ss, fk, ci, cs, ro⟩
  simp only at hk
  subst hk
  rcases ss with _ | sd
  · rfl
  · rcases sd with _ | ct2
    · rfl
    · simp [get_user_credentials, decrypt_token, get_fernet_key]

/-- Claim C8 witness — the amended behaviour at the concrete
missing-key environment. -/
theorem C8_missing_key_behaviour_witness :
    credEnvNoKey.fernetKey = none
    ∧ ((∃ e, get_fernet_key none = .error e)
       ∧ (∃ e, encrypt_token none "tok" = .error e)
       ∧ (∃ e, decrypt_token none (.tampered "z") = .error e)
       ∧ get_user_credentials credEnvNoKey = none) :=
  ⟨rfl, C8_missing_key_behaviour "tok" (.tampered "z") credEnvNoKey rfl⟩

/-- Claim C9 counterexample — starting from an empty store, a first
`ensure_folder "Idea Farm"` run with both API calls succeeding creates
the folder; on a second run whose `files().list` call raises,
`find_folder` swallows the exception into `None` (drive_service.py lines
34–36), so `ensure_folder` creates a second folder of the same name: the
store ends up with two folders named `"Idea Farm"`, refuting "calling the
archival upload twice with the same folder name never creates two
folders". -/
theorem C9_counterexample :
    ((ensure_folder (ensure_folder emptyDrive noFaults "Idea Farm").2
        listDown "Idea Farm").2.folders.filter
          (fun p => p.2 = "Idea Farm")).length = 2 := by
  decide

/-- Claim C9 (amended) — `ensure_folder` is find-then-create, and as long
as the second run's folder-search call succeeds, calling it twice with the
same folder name never creates two folders: the second call returns the
very folder the first (fault-free) call produced or found, and leaves the
store unchanged; one call adds at most one folder.  (When the second run's
search call raises, `find_folder` returns `None` and a duplicate folder is
created — the counterexample.) -/
theorem C9_ensure_folder_idempotent (w : DriveWorld) (name : String)
    (f2 : DriveCallFaults) (h2 : f2.listFails = false) :
    ensure_folder (ensure_folder w noFaults name).2 f2 name
        = ensure_folder w noFaults name
    ∧ (ensure_folder (ensure_folder w noFaults name).2 f2 name).2.folders.length
        = (ensure_folder w noFaults name).2.folders.length
    ∧ (ensure_folder w noFaults name).2.folders.length
        ≤ w.folders.length + 1 := by
  cases hf : w.folders.find? (fun p => p.2 = name) with
  | some p =>
      have h1 : ensure_folder w noFaults name = (some p.1, w) := by
        simp [ensure_folder, find_folder, noFaults, hf]
      have hmain : ensure_folder (ensure_folder w noFaults name).2 f2 name
          = ensure_folder w noFaults name := by
        rw [h1]
        simp [ensure_folder, find_folder, h2, hf]
      exact ⟨hmain, by rw [hmain], by rw [h1]; exact Nat.le_succ _⟩
  | none =>
      have h1 : ensure_folder w noFaults name
          = (some ("folder-" ++ toString w.nextId),
             { folders := w.folders ++ [("folder-" ++ toString w.nextId, name)],
               nextId := w.nextId + 1 }) := by
        simp [ensure_folder, find_folder, noFaults, hf, create_folder]
      have hfind : find_folder
          { folders := w.folders ++ [("folder-" ++ toString w.nextId, name)],
            nextId := w.nextId + 1 } f2.listFails name
          = some ("folder-" ++ toString w.nextId) := by
        rw [find_folder]
        simp [h2, List.find?_append, hf]
      have hmain : ensure_folder (ensure_folder w noFaults name).2 f2 name
          = ensure_folder w noFaults name := by
        rw [h1]
        simp [ensure_folder, hfind]
      exact ⟨hmain, by rw [hmain], by rw [h1]; simp⟩

/-- Claim C9 witness — the conditional idempotence instantiated at the
empty store and a fault-free second run. -/
theorem C9_ensure_folder_idempotent_witness :
    noFaults.listFails = false
    ∧ (ensure_folder (ensure_folder emptyDrive noFaults "Idea Farm").2
          noFaults "Idea Farm"
        = ensure_folder emptyDrive noFaults "Idea Farm"
       ∧ (ensure_folder (ensure_folder emptyDrive noFaults "Idea Farm").2
            noFaults "Idea Farm").2.folders.length
          = (ensure_folder emptyDrive noFaults "Idea Farm").2.folders.length
       ∧ (ensure_folder emptyDrive noFaults "Idea Farm").2.folders.length
          ≤ emptyDrive.folders.length + 1) :=
  ⟨rfl, C9_ensure_folder_idempotent emptyDrive "Idea Farm" noFaults rfl⟩

/-- Claim C10 — `summarize` on empty content or a failed client
initialization returns the empty dict, which carries no `error` key and no
placeholders; the orchestrator then marks the idea `ready` with `summary`
null, `detailedAnalysis` null, topic `Uncategorized`, and an empty
suggested-link list, not `failed`. -/
theorem C10_empty_input_ready (client : Option Unit) (content : String)
    (aenv : AIEnv) (doc : IdeaDoc) (env : PipelineEnv)
    (hin : content = "" ∨ client = none)
    (hm : env.markProcessing = .ok ()) (hp : env.persistText = .ok ())
    (hs : env.summarize = .ok (summarize client content aenv))
    (hf : env.finalUpdate = .ok ()) :
    summarize client content aenv = emptySummary
    ∧ emptySummary.error = none
    ∧ (process_new_idea doc env).idea.status = "ready"
    ∧ (process_new_idea doc env).idea.summary = none
    ∧ (process_new_idea doc env).idea.detailedAnalysis = none
    ∧ (process_new_idea doc env).idea.topic = some "Uncategorized"
    ∧ (process_new_idea doc env).idea.suggestedLinks = some ([] : List Link) := by
  have hsum : summarize client content aenv = emptySummary := by
    rcases hin with h | h <;> simp [summarize, h]
  rw [hsum] at hs
  refine ⟨hsum, rfl, ?_, ?_, ?_, ?_, ?_⟩ <;>
    simp [process_new_idea, hm, hp, hs, hf, applyFinalUpdate, emptySummary]

/-- Claim C10 witness — the empty-input path at a concrete idea run
through the all-success environment. -/
theorem C10_empty_input_ready_witness :
    (("" : String) = "" ∨ (some () : Option Unit) = none)
    ∧ (summarize (some ()) "" aiErrEnv = emptySummary
       ∧ emptySummary.error = none
       ∧ (process_new_idea { status := "new" } allOkEnv).idea.status = "ready"
       ∧ (process_new_idea { status := "new" } allOkEnv).idea.summary = none
       ∧ (process_new_idea { status := "new" } allOkEnv).idea.detailedAnalysis = none
       ∧ (process_new_idea { status := "new" } allOkEnv).idea.topic
           = some "Uncategorized"
       ∧ (process_new_idea { status := "new" } allOkEnv).idea.suggestedLinks
           = some ([] : List Link)) :=
  ⟨Or.inl rfl,
   C10_empty_input_ready (some ()) "" aiErrEnv { status := "new" } allOkEnv
     (Or.inl rfl) rfl rfl rfl rfl⟩

end IdeaFarm
